import Mathlib

/-!
Verification of the DrugAge chatbot core (query guard, context resolver,
markdown-table extractor, chart renderer) against its natural-language
specification.

The Python sources are shallowly embedded:
* string manipulation is modelled on `List Char` (Python `str.strip`,
  `str.lower`, `in`, `startswith`, `split`) with structural recursion;
* the SQLAlchemy engine is an abstract function from a SQL string to either
  rows or an error message; an `Option` engine models the `self.engine = None`
  fallback of `DrugAgeDBTools.__init__`;
* numeric cells are rationals (the claims under study concern control flow,
  row counts and ordering, never float rounding).
-/

/-- A scalar cell of a database row or of a parsed Python tuple: a string or a
number. Numbers are modelled as rationals. -/
inductive Cell where
  | str (s : String)
  | num (q : Rat)
deriving DecidableEq, Repr

/-- Python `str.strip()`: drop whitespace from both ends of the character
list. -/
def pyStrip (cs : List Char) : List Char :=
  ((cs.dropWhile Char.isWhitespace).reverse.dropWhile Char.isWhitespace).reverse

/-- Python `str.lower()` on a character list. -/
def pyLower (cs : List Char) : List Char :=
  cs.map Char.toLower

/-- Python substring test `needle in hay` on character lists. -/
def containsSub : List Char → List Char → Bool
  | [], needle => needle.isEmpty
  | h :: t, needle => needle.isPrefixOf (h :: t) || containsSub t needle

/-- Abstract model of a live database engine (`db_tools.py`): executing a SQL
string either returns the fetched rows or fails with the backend's error
message. -/
def DBEngine : Type :=
  String → Except String (List (List Cell))

/-- The outcome of `DrugAgeDBTools.run_sql_query`, one constructor per return
path of the Python function (`db_tools.py`, lines 41-63). -/
inductive QueryOutcome where
  | notInitialized
  | policyViolation
  | success (rows : List (List Cell))
  | execError (e : String)
deriving DecidableEq, Repr

/-- What one call to `run_sql_query` produced, together with whether the call
reached `self.engine.connect()` (a dataset access). -/
structure RunResult where
  outcome : QueryOutcome
  dbAccessed : Bool
deriving DecidableEq, Repr

/-- The guard condition of `run_sql_query`:
`query.strip().lower().startswith('select')` (`db_tools.py`, line 45). -/
def selectPolicyOk (query : String) : Bool :=
  "select".data.isPrefixOf (pyLower (pyStrip query.data))

/-- `DrugAgeDBTools.run_sql_query` (`db_tools.py`, lines 29-63): the engine
check, then the select-only policy check, then execution. The `dbAccessed`
flag is true exactly on the paths that open a connection. -/
def run_sql_query (engine : Option DBEngine) (query : String) : RunResult :=
  match engine with
  | none => { outcome := .notInitialized, dbAccessed := false }
  | some db =>
    if selectPolicyOk query then
      match db query with
      | .ok rows => { outcome := .success rows, dbAccessed := true }
      | .error e => { outcome := .execError e, dbAccessed := true }
    else { outcome := .policyViolation, dbAccessed := false }

/-- Textual rendering of a nonempty-result cell, approximating Python's
`str` of a scalar (no claim depends on this rendering). -/
def cellText : Cell → String
  | .str s => "'" ++ s ++ "'"
  | .num q => toString q.num ++ (if q.den = 1 then "" else "/" ++ toString q.den)

/-- Textual rendering of one row as a Python tuple. -/
def rowText (r : List Cell) : String :=
  "(" ++ String.intercalate ", " (r.map cellText) ++ ")"

/-- The string `run_sql_query` returns for each outcome: the three fixed
messages and the `str(result_list)` rendering of nonempty results
(`db_tools.py`, lines 42, 46, 53-60). -/
def render : QueryOutcome → String
  | .notInitialized => "Error: Database connection not initialized."
  | .policyViolation => "Error: Only SELECT queries are allowed for security reasons."
  | .success [] => "Query executed successfully, but returned no results."
  | .success rows => "[" ++ String.intercalate ", " (rows.map rowText) ++ "]"
  | .execError e => "Error executing query: " ++ e

/-- An outcome is a failure unless it is a (possibly empty) success. -/
def isFailureOutcome : QueryOutcome → Bool
  | .success _ => false
  | _ => true

/-- The leading non-whitespace token of a query string, read as the claim's
wording reads it (everything up to the first whitespace after skipping leading
whitespace). This is the spec-side notion the code's prefix check is compared
against. -/
def leadingToken (q : String) : String :=
  String.mk ((q.data.dropWhile Char.isWhitespace).takeWhile (fun c => !c.isWhitespace))

/-- An engine whose every query returns zero rows; used for concrete
instantiations. -/
def dbEmpty : DBEngine :=
  fun _ => Except.ok []

/-- C1 counterexample: the query string `"selections from drug_data"` has
leading non-whitespace token `selections`, which is not `select` even
case-insensitively, yet `run_sql_query` does not reject it — the code checks
the prefix `select`, not the leading token — and it does access the dataset. -/
theorem run_sql_query_token_claim_cex :
    pyLower (leadingToken "selections from drug_data").data ≠ "select".data
    ∧ (run_sql_query (some dbEmpty) "selections from drug_data").outcome
        ≠ QueryOutcome.policyViolation
    ∧ (run_sql_query (some dbEmpty) "selections from drug_data").dbAccessed = true :=
  ⟨by decide, by decide, rfl⟩

/-- C1 (amended): with an initialized engine, every query whose stripped,
lower-cased text does not begin with the prefix `select` is rejected with the
policy-violation failure, no dataset access is performed, and the rendered
message is the fixed policy-violation string. -/
theorem run_sql_query_policy_reject (db : DBEngine) (q : String)
    (h : selectPolicyOk q = false) :
    run_sql_query (some db) q
        = { outcome := .policyViolation, dbAccessed := false }
    ∧ render (run_sql_query (some db) q).outcome
        = "Error: Only SELECT queries are allowed for security reasons." := by
  have h1 : run_sql_query (some db) q
      = { outcome := .policyViolation, dbAccessed := false } := by
    simp [run_sql_query, h]
  exact ⟨h1, by rw [h1]; rfl⟩

/-- C1 witness: the mutation query of Scenario C is concretely rejected with
no dataset access. -/
theorem run_sql_query_policy_reject_witness :
    run_sql_query (some dbEmpty) "DROP TABLE drug_data;"
        = { outcome := .policyViolation, dbAccessed := false }
    ∧ render (run_sql_query (some dbEmpty) "DROP TABLE drug_data;").outcome
        = "Error: Only SELECT queries are allowed for security reasons." :=
  run_sql_query_policy_reject dbEmpty "DROP TABLE drug_data;" (by decide)

/-- Helper: the execution-error rendering can never coincide with the
zero-row success rendering, whatever the backend message. -/
theorem render_execError_ne_empty (e : String) :
    render (QueryOutcome.execError e) ≠ render (QueryOutcome.success []) := by
  intro h
  have h0 : ("Error executing query: " ++ e : String)
      = "Query executed successfully, but returned no results." := h
  have h1 : ("Error executing query: " ++ e).data.head?
      = ("Query executed successfully, but returned no results." : String).data.head? := by
    rw [h0]
  rw [String.data_append] at h1
  have h2 : ("Error executing query: ".data ++ e.data).head? = some 'E' := rfl
  rw [h2] at h1
  exact absurd h1 (by decide)

/-- C2: an accepted select query whose execution yields zero rows produces the
empty-success outcome: the dataset is touched, the outcome is not a failure,
the rendered message is the fixed zero-row success string, and that rendering
differs from every failure rendering (policy violation, uninitialized engine,
and every execution error). -/
theorem run_sql_query_zero_rows_success (db : DBEngine) (q : String)
    (hsel : selectPolicyOk q = true) (hdb : db q = Except.ok []) :
    (run_sql_query (some db) q).outcome = QueryOutcome.success []
    ∧ (run_sql_query (some db) q).dbAccessed = true
    ∧ isFailureOutcome (run_sql_query (some db) q).outcome = false
    ∧ render (run_sql_query (some db) q).outcome
        = "Query executed successfully, but returned no results."
    ∧ render QueryOutcome.policyViolation ≠ render (QueryOutcome.success [])
    ∧ render QueryOutcome.notInitialized ≠ render (QueryOutcome.success [])
    ∧ ∀ e, render (QueryOutcome.execError e) ≠ render (QueryOutcome.success []) := by
  have h1 : run_sql_query (some db) q
      = { outcome := .success [], dbAccessed := true } := by
    simp [run_sql_query, hsel, hdb]
  refine ⟨by rw [h1], by rw [h1], by rw [h1]; rfl, by rw [h1]; rfl, ?_, ?_, ?_⟩
  · decide
  · decide
  · exact render_execError_ne_empty

/-- C2 witness: a concrete select query against an engine that returns zero
rows. -/
theorem run_sql_query_zero_rows_success_witness :
    (run_sql_query (some dbEmpty) "SELECT compound_name FROM drug_data").outcome
        = QueryOutcome.success []
    ∧ (run_sql_query (some dbEmpty) "SELECT compound_name FROM drug_data").dbAccessed = true
    ∧ isFailureOutcome
        (run_sql_query (some dbEmpty) "SELECT compound_name FROM drug_data").outcome = false
    ∧ render (run_sql_query (some dbEmpty) "SELECT compound_name FROM drug_data").outcome
        = "Query executed successfully, but returned no results."
    ∧ render QueryOutcome.policyViolation ≠ render (QueryOutcome.success [])
    ∧ render QueryOutcome.notInitialized ≠ render (QueryOutcome.success [])
    ∧ ∀ e, render (QueryOutcome.execError e) ≠ render (QueryOutcome.success []) :=
  run_sql_query_zero_rows_success dbEmpty "SELECT compound_name FROM drug_data"
    (by decide) rfl

/-- C10: with an uninitialized engine (`self.engine = None`), every query —
select and non-select alike — yields the fixed not-initialized message with no
dataset access; since this check precedes the policy check, the outcome is
never the policy violation and the rendered message differs from the
policy-violation message. -/
theorem run_sql_query_uninitialized (q : String) :
    run_sql_query none q
        = { outcome := .notInitialized, dbAccessed := false }
    ∧ render (run_sql_query none q).outcome
        = "Error: Database connection not initialized."
    ∧ (run_sql_query none q).outcome ≠ QueryOutcome.policyViolation
    ∧ render (run_sql_query none q).outcome ≠ render QueryOutcome.policyViolation := by
  refine ⟨rfl, rfl, ?_, ?_⟩
  · intro hc
    exact QueryOutcome.noConfusion hc
  · intro hc
    have hc2 : ("Error: Database connection not initialized." : String)
        = "Error: Only SELECT queries are allowed for security reasons." := hc
    exact absurd hc2 (by decide)

/-- Outcome of the distinct-values operation: the distinct values of an
allow-listed column, or the unsupported-column failure. -/
inductive DVOutcome where
  | ok (vals : List String)
  | unsupportedColumn
deriving DecidableEq, Repr

/-- A distinct-values call's outcome together with whether it performed a
dataset round-trip. -/
structure DVResult where
  outcome : DVOutcome
  dbAccessed : Bool
deriving DecidableEq, Repr

/-- Modelled from the spec: `DrugAgeDBTools.get_unique_values` is called by
`get_supported_keywords` in `app.py` but its body is absent from the
repository's files. Per the spec's `distinctValues` contract, it runs a
`SELECT DISTINCT` restricted to the fixed allow-list of the two column names
`species` and `value_type`, and any other column name fails fast with kind
`UnsupportedColumn` without touching the dataset. The `distinct` argument
abstracts the dataset's distinct-values query. -/
def get_unique_values (distinct : String → List String) (column : String) : DVResult :=
  if column = "species" || column = "value_type" then
    { outcome := .ok (distinct column), dbAccessed := true }
  else
    { outcome := .unsupportedColumn, dbAccessed := false }

/-- C3: the distinct-values operation succeeds (returns the ordered distinct
values, never the failure) for exactly the two allow-listed column names, and
every other column name yields the unsupported-column failure with no dataset
round-trip. -/
theorem get_unique_values_allowlist (distinct : String → List String) (column : String) :
    ((∃ vals, (get_unique_values distinct column).outcome = DVOutcome.ok vals)
      ↔ (column = "species" ∨ column = "value_type"))
    ∧ ((column = "species" ∨ column = "value_type") →
        (get_unique_values distinct column).outcome = DVOutcome.ok (distinct column)
        ∧ (get_unique_values distinct column).outcome ≠ DVOutcome.unsupportedColumn
        ∧ (get_unique_values distinct column).dbAccessed = true)
    ∧ (¬(column = "species" ∨ column = "value_type") →
        (get_unique_values distinct column).outcome = DVOutcome.unsupportedColumn
        ∧ (get_unique_values distinct column).dbAccessed = false) := by
  by_cases h : column = "species" ∨ column = "value_type"
  · have hb : (column = "species" || column = "value_type") = true := by
      rcases h with h | h <;> simp [h]
    refine ⟨⟨fun _ => h, fun _ => ⟨distinct column, by simp [get_unique_values, hb]⟩⟩,
      fun _ => ⟨by simp [get_unique_values, hb], by simp [get_unique_values, hb], by
        simp [get_unique_values, hb]⟩, fun hc => absurd h hc⟩
  · have hb : (column = "species" || column = "value_type") = false := by
      push_neg at h
      simp [h.1, h.2]
    refine ⟨⟨fun ⟨vals, hv⟩ => ?_, fun hc => absurd hc h⟩,
      fun hc => absurd hc h,
      fun _ => ⟨by simp [get_unique_values, hb], by simp [get_unique_values, hb]⟩⟩
    rw [show (get_unique_values distinct column).outcome = DVOutcome.unsupportedColumn by
      simp [get_unique_values, hb]] at hv
    exact DVOutcome.noConfusion hv

/-- A session's `user_settings` mapping (`st.session_state["user_settings"]`):
setting name to resolved value, absent keys mapped to `none`. -/
def Ctx : Type :=
  String → Option String

/-- Python `d[k] = v` on the settings mapping. -/
def insertKV (k v : String) (c : Ctx) : Ctx :=
  fun k2 => if k2 = k then some v else c k2

theorem insertKV_same (k v : String) (c : Ctx) : insertKV k v c k = some v := by
  simp [insertKV]

theorem insertKV_other (k v k2 : String) (c : Ctx) (h : k2 ≠ k) :
    insertKV k v c k2 = c k2 := by
  simp [insertKV, h]

theorem insertKV_isSome (k v k2 : String) (c : Ctx) (h : (c k2).isSome = true) :
    ((insertKV k v c) k2).isSome = true := by
  by_cases hk : k2 = k <;> simp [insertKV, hk, h]

namespace App

/-- The default-insertion step of `update_user_context` (`app.py`,
lines 67-71): ensure `species` and `value_type` exist, defaulting to
`"mice"` and `"average"`. -/
def addDefaults (c : Ctx) : Ctx :=
  let c1 := if (c "species").isSome then c else insertKV "species" "mice" c
  if (c1 "value_type").isSome then c1 else insertKV "value_type" "average" c1

/-- `update_user_context` as defined and used by `app.py` (lines 64-81):
defaults first, then overwrite `species` with the first supported species
occurring in the lower-cased prompt, then likewise `value_type`. -/
def update_user_context (prompt : String)
    (supported_species supported_value_types : List String) (c : Ctx) : Ctx :=
  let lower := pyLower prompt.data
  let c2 := addDefaults c
  let c3 := match supported_species.find? (fun s => containsSub lower s.data) with
    | some s => insertKV "species" s c2
    | none => c2
  match supported_value_types.find? (fun v => containsSub lower v.data) with
  | some v => insertKV "value_type" v c3
  | none => c3

end App

namespace ContextTools

/-- `update_user_context` as defined in `context_tools.py` (lines 7-20): the
same keyword scan as the `app.py` version but with no default insertion. This
module is not imported by `app.py`; it is an unused duplicate. -/
def update_user_context (prompt : String)
    (supported_species supported_value_types : List String) (c : Ctx) : Ctx :=
  let lower := pyLower prompt.data
  let c3 := match supported_species.find? (fun s => containsSub lower s.data) with
    | some s => insertKV "species" s c
    | none => c
  match supported_value_types.find? (fun v => containsSub lower v.data) with
  | some v => insertKV "value_type" v c3
  | none => c3

end ContextTools

theorem addDefaults_species_eval (c : Ctx) :
    (App.addDefaults c) "species"
      = if (c "species").isSome then c "species" else some "mice" := by
  by_cases h1 : (c "species").isSome = true
  · by_cases h2 : (c "value_type").isSome = true
    · simp [App.addDefaults, h1, h2]
    · simp [App.addDefaults, h1, h2, insertKV]
  · by_cases h2 : (c "value_type").isSome = true
    · simp [App.addDefaults, h1, h2, insertKV]
    · simp [App.addDefaults, h1, h2, insertKV]

theorem addDefaults_value_type_eval (c : Ctx) :
    (App.addDefaults c) "value_type"
      = if (c "value_type").isSome then c "value_type" else some "average" := by
  by_cases h1 : (c "species").isSome = true
  · by_cases h2 : (c "value_type").isSome = true
    · simp [App.addDefaults, h1, h2]
    · simp [App.addDefaults, h1, h2, insertKV]
  · by_cases h2 : (c "value_type").isSome = true
    · simp [App.addDefaults, h1, h2, insertKV]
    · simp [App.addDefaults, h1, h2, insertKV]

theorem addDefaults_other (c : Ctx) (k : String) (h1 : k ≠ "species")
    (h2 : k ≠ "value_type") : (App.addDefaults c) k = c k := by
  have hvs : ("value_type" : String) ≠ "species" := by decide
  by_cases hs : (c "species").isSome = true
  · by_cases hv : (c "value_type").isSome = true
    · simp [App.addDefaults, hs, hv]
    · simp [App.addDefaults, hs, hv, insertKV, h2]
  · by_cases hv : (c "value_type").isSome = true
    · simp [App.addDefaults, hs, hv, insertKV, hvs, h1]
    · simp [App.addDefaults, hs, hv, insertKV, hvs, h1, h2]

theorem addDefaults_of_both (c : Ctx) (h1 : (c "species").isSome = true)
    (h2 : (c "value_type").isSome = true) : App.addDefaults c = c := by
  simp [App.addDefaults, h1, h2]

/-- Evaluation of the app's context update at the `species` key. -/
theorem update_eval_species (prompt : String) (ss vt : List String) (c : Ctx) :
    (App.update_user_context prompt ss vt c) "species"
      = match ss.find? (fun s => containsSub (pyLower prompt.data) s.data) with
        | some s => some s
        | none => (App.addDefaults c) "species" := by
  unfold App.update_user_context
  cases hss : ss.find? (fun s => containsSub (pyLower prompt.data) s.data) with
  | none =>
    cases hvt : vt.find? (fun v => containsSub (pyLower prompt.data) v.data) with
    | none => simp
    | some v => simp [insertKV]
  | some s =>
    cases hvt : vt.find? (fun v => containsSub (pyLower prompt.data) v.data) with
    | none => simp [insertKV]
    | some v => simp [insertKV]

/-- Evaluation of the app's context update at the `value_type` key. -/
theorem update_eval_value_type (prompt : String) (ss vt : List String) (c : Ctx) :
    (App.update_user_context prompt ss vt c) "value_type"
      = match vt.find? (fun v => containsSub (pyLower prompt.data) v.data) with
        | some v => some v
        | none => (App.addDefaults c) "value_type" := by
  unfold App.update_user_context
  cases hss : ss.find? (fun s => containsSub (pyLower prompt.data) s.data) with
  | none =>
    cases hvt : vt.find? (fun v => containsSub (pyLower prompt.data) v.data) with
    | none => simp
    | some v => simp [insertKV]
  | some s =>
    cases hvt : vt.find? (fun v => containsSub (pyLower prompt.data) v.data) with
    | none => simp [insertKV]
    | some v => simp [insertKV]

/-- Evaluation of the app's context update at any other key: untouched. -/
theorem update_eval_other (prompt : String) (ss vt : List String) (c : Ctx)
    (k : String) (h1 : k ≠ "species") (h2 : k ≠ "value_type") :
    (App.update_user_context prompt ss vt c) k = c k := by
  unfold App.update_user_context
  cases hss : ss.find? (fun s => containsSub (pyLower prompt.data) s.data) with
  | none =>
    cases hvt : vt.find? (fun v => containsSub (pyLower prompt.data) v.data) with
    | none => simpa using addDefaults_other c k h1 h2
    | some v => simpa [insertKV, h2] using addDefaults_other c k h1 h2
  | some s =>
    cases hvt : vt.find? (fun v => containsSub (pyLower prompt.data) v.data) with
    | none => simpa [insertKV, h1] using addDefaults_other c k h1 h2
    | some v => simpa [insertKV, h1, h2] using addDefaults_other c k h1 h2

/-- Helper: `find?` returns the element at the first index whose predicate
holds, when all earlier indices fail. -/
theorem find?_of_first {α : Type _} (p : α → Bool) (l : List α) (i : Nat)
    (hi : i < l.length) (hp : p (l.get ⟨i, hi⟩) = true)
    (hprev : ∀ j (hj : j < i), p (l.get ⟨j, Nat.lt_trans hj hi⟩) = false) :
    l.find? p = some (l.get ⟨i, hi⟩) := by
  induction l generalizing i with
  | nil => exact absurd hi (Nat.not_lt_zero i)
  | cons a t ih =>
    cases i with
    | zero => exact List.find?_cons_of_pos t hp
    | succ n =>
      have ha : p a = false := hprev 0 (Nat.succ_pos n)
      rw [List.find?_cons_of_neg _ (by simp [ha])]
      exact ih n (Nat.lt_of_succ_lt_succ hi) hp
        (fun j hj => hprev (j + 1) (Nat.succ_lt_succ hj))

/-- C5: the app's context update never removes a setting: every key present
beforehand is present afterwards; and when the user text contains no supported
keyword, the update is exactly the default-insertion step — in particular it
is the identity once both defaults are present (idempotence from the second
no-match call on). -/
theorem update_user_context_persistence (prompt : String) (ss vt : List String)
    (c : Ctx) :
    (∀ k, (c k).isSome = true →
        ((App.update_user_context prompt ss vt c) k).isSome = true)
    ∧ ((∀ s ∈ ss, containsSub (pyLower prompt.data) s.data = false) →
        (∀ v ∈ vt, containsSub (pyLower prompt.data) v.data = false) →
        App.update_user_context prompt ss vt c = App.addDefaults c
        ∧ ((c "species").isSome = true → (c "value_type").isSome = true →
            App.update_user_context prompt ss vt c = c)) := by
  constructor
  · intro k hk
    by_cases h1 : k = "species"
    · subst h1
      rw [update_eval_species]
      cases hss : ss.find? (fun s => containsSub (pyLower prompt.data) s.data) with
      | some s => simp
      | none => simp [addDefaults_species_eval, hk]
    · by_cases h2 : k = "value_type"
      · subst h2
        rw [update_eval_value_type]
        cases hvt : vt.find? (fun v => containsSub (pyLower prompt.data) v.data) with
        | some v => simp
        | none => simp [addDefaults_value_type_eval, hk]
      · rw [update_eval_other prompt ss vt c k h1 h2]
        exact hk
  · intro hss hvt
    have hfs : ss.find? (fun s => containsSub (pyLower prompt.data) s.data) = none :=
      List.find?_eq_none.mpr (fun s hs => by simp [hss s hs])
    have hfv : vt.find? (fun v => containsSub (pyLower prompt.data) v.data) = none :=
      List.find?_eq_none.mpr (fun v hv => by simp [hvt v hv])
    refine ⟨by simp [App.update_user_context, hfs, hfv], fun h1 h2 => ?_⟩
    have hb := addDefaults_of_both c h1 h2
    simp [App.update_user_context, hfs, hfv, hb]

/-- C6: after every call to the app's context update, both `species` and
`value_type` are present; when a key was absent and no keyword matched, it now
holds its domain default (`"mice"` / `"average"`), showing the defaults are
inserted before (and survive) the keyword search. -/
theorem update_user_context_defaults (prompt : String) (ss vt : List String)
    (c : Ctx) :
    ((App.update_user_context prompt ss vt c) "species").isSome = true
    ∧ ((App.update_user_context prompt ss vt c) "value_type").isSome = true
    ∧ (c "species" = none →
        ss.find? (fun s => containsSub (pyLower prompt.data) s.data) = none →
        (App.update_user_context prompt ss vt c) "species" = some "mice")
    ∧ (c "value_type" = none →
        vt.find? (fun v => containsSub (pyLower prompt.data) v.data) = none →
        (App.update_user_context prompt ss vt c) "value_type" = some "average") := by
  refine ⟨?_, ?_, ?_, ?_⟩
  · rw [update_eval_species]
    cases hss : ss.find? (fun s => containsSub (pyLower prompt.data) s.data) with
    | some s => simp
    | none =>
      by_cases h : (c "species").isSome = true <;>
        simp [addDefaults_species_eval, h]
  · rw [update_eval_value_type]
    cases hvt : vt.find? (fun v => containsSub (pyLower prompt.data) v.data) with
    | some v => simp
    | none =>
      by_cases h : (c "value_type").isSome = true <;>
        simp [addDefaults_value_type_eval, h]
  · intro hnone hfs
    rw [update_eval_species, hfs, addDefaults_species_eval, hnone]
    simp
  · intro hnone hfv
    rw [update_eval_value_type, hfv, addDefaults_value_type_eval, hnone]
    simp

/-- C7: when the lower-cased user text contains some supported species, the
app's context update sets `species` to the first such value in the iteration
order of the supported list (all earlier values failing the substring test),
and likewise for `value_type`. -/
theorem update_user_context_first_match (prompt : String) (ss vt : List String)
    (c : Ctx) :
    (∀ i (hi : i < ss.length),
        containsSub (pyLower prompt.data) (ss.get ⟨i, hi⟩).data = true →
        (∀ j (hj : j < i),
          containsSub (pyLower prompt.data) (ss.get ⟨j, Nat.lt_trans hj hi⟩).data
            = false) →
        (App.update_user_context prompt ss vt c) "species" = some (ss.get ⟨i, hi⟩))
    ∧ (∀ i (hi : i < vt.length),
        containsSub (pyLower prompt.data) (vt.get ⟨i, hi⟩).data = true →
        (∀ j (hj : j < i),
          containsSub (pyLower prompt.data) (vt.get ⟨j, Nat.lt_trans hj hi⟩).data
            = false) →
        (App.update_user_context prompt ss vt c) "value_type"
          = some (vt.get ⟨i, hi⟩)) := by
  constructor
  · intro i hi hp hprev
    have hf := find?_of_first (fun s => containsSub (pyLower prompt.data) s.data)
      ss i hi hp hprev
    rw [update_eval_species, hf]
  · intro i hi hp hprev
    have hf := find?_of_first (fun v => containsSub (pyLower prompt.data) v.data)
      vt i hi hp hprev
    rw [update_eval_value_type, hf]

/-- Concrete sanity check of the context update: on a fresh session, a prompt
mentioning `rats` and `maximum` resolves both settings by keyword scan. -/
theorem update_user_context_scan_example :
    (App.update_user_context "Show top drugs for rats and maximum lifespan"
        ["mice", "rats"] ["average", "maximum"] (fun _ => none)) "species"
      = some "rats"
    ∧ (App.update_user_context "Show top drugs for rats and maximum lifespan"
        ["mice", "rats"] ["average", "maximum"] (fun _ => none)) "value_type"
      = some "maximum" := by
  exact ⟨by decide, by decide⟩

/-- Concrete sanity check of Scenario D: `rats` unsupported, species stays at
its default `mice`. -/
theorem update_user_context_no_match_example :
    (App.update_user_context "show results for rats" ["mice"] ["average"]
        (fun _ => none)) "species" = some "mice" := by
  decide

/-- Python `text.split -- on a newline -- ` semantics on a character list:
`splitLines []` is `[[]]` (Python `"".split` on a separator gives one empty
part), and a trailing newline yields a trailing empty part. -/
def splitLines : List Char → List (List Char)
  | [] => [[]]
  | c :: rest =>
    if c = '\n' then [] :: splitLines rest
    else
      match splitLines rest with
      | [] => [[c]]
      | h :: t => (c :: h) :: t

/-- A line can open the table match of `extract_markdown_table`'s regex
`(\|.*\|[\r\n]+)((?:\|.*\|[\r\n]?)+)` (`app.py`, line 47): since `.` does not
cross a newline and the closing `\|` of the first group must be followed
directly by newline characters, the line must end in `|` and contain a second
`|` before it. (Texts are modelled without carriage returns, so the newline
class is just the line split.) -/
def headerish (l : List Char) : Bool :=
  (l.getLast? == some '|') && decide (2 ≤ l.count '|')

/-- A line can start the second regex group: its first character must be the
`\|` the group opens with, and a second `|` must close `\|.*\|`. -/
def bodyish (l : List Char) : Bool :=
  (l.head? == some '|') && decide (2 ≤ l.count '|')

/-- After the header line, the greedy `[\r\n]+` consumes the whole run of
newlines (skipping empty lines); the second group must then match at least
once, so the first non-empty following line must be `bodyish` (and some
following line must exist at all). -/
def followerOk (rest : List (List Char)) : Bool :=
  match rest.dropWhile (fun l => l.isEmpty) with
  | [] => false
  | b :: _ => bodyish b

/-- The header's captured part: the regex search starts at the line's first
`|` (the leftmost position where the pattern can match). -/
def headerPart (l : List Char) : List Char :=
  l.dropWhile (fun c => c != '|')

/-- Truncate a line at its last `|` (greedy `\|.*\|` keeps everything up to
the last pipe of the line and nothing after it). -/
def truncAtLastPipe (l : List Char) : List Char :=
  (l.reverse.dropWhile (fun c => c != '|')).reverse

/-- The lines captured by the repeated second group `(?:\|.*\|[\r\n]?)+`: it
keeps taking lines that start and end the `\|.*\|` shape; a body line with
text after its last `|` is truncated there and ends the chain (the optional
`[\r\n]?` cannot skip the trailing text); a non-`bodyish` line ends the
chain. -/
def bodyChain : List (List Char) → List (List Char)
  | [] => []
  | b :: rest =>
    if bodyish b then
      if b.getLast? == some '|' then b :: bodyChain rest
      else [truncAtLastPipe b]
    else []

/-- The full matched block (group 1 then group 2) for a header line and the
lines after it: the header from its first `|`, the empty lines the greedy
`[\r\n]+` consumed, then the body chain. -/
def tableBlock (header : List Char) (rest : List (List Char)) : List (List Char) :=
  headerPart header
    :: (rest.takeWhile (fun l => l.isEmpty) ++ bodyChain (rest.dropWhile (fun l => l.isEmpty)))

/-- The line-level reading of `re.search` with the table pattern: scan the
lines in order for the first one that can open a match (`headerish`) and is
followed by a viable second group (`followerOk`); positions inside a line
before its first `|`, or in a line that is not `headerish`, can never start a
match, so this scan finds exactly the leftmost regex match. -/
def extractLines : List (List Char) → Option (List (List Char))
  | [] => none
  | l :: rest =>
    if headerish l && followerOk rest then some (tableBlock l rest)
    else extractLines rest

/-- The cleaning step of `extract_markdown_table` (`app.py`, lines 49-50):
join the block, strip the whole, split on newlines again, strip each line,
and rejoin. -/
def cleanBlock (block : List (List Char)) : String :=
  String.mk (List.intercalate ['\n']
    ((splitLines (pyStrip (List.intercalate ['\n'] block))).map pyStrip))

/-- `extract_markdown_table` (`app.py`, lines 46-52) on newline-separated text
(carriage returns are not modelled): the first regex match, cleaned, or `None`
when the pattern matches nowhere. -/
def extract_markdown_table (text : String) : Option String :=
  (extractLines (splitLines text.data)).map cleanBlock

/-- Helper: the line scan succeeds exactly when some line is a viable header
with a viable follower. -/
theorem extractLines_isSome_iff (lines : List (List Char)) :
    (extractLines lines).isSome = true ↔
      ∃ i, ∃ hi : i < lines.length,
        headerish (lines.get ⟨i, hi⟩) = true
        ∧ followerOk (lines.drop (i + 1)) = true := by
  induction lines with
  | nil =>
    constructor
    · intro hs
      exact absurd hs (by simp [extractLines])
    · intro ⟨i, hi, _⟩
      exact absurd hi (Nat.not_lt_zero i)
  | cons l rest ih =>
    by_cases hc : (headerish l && followerOk rest) = true
    · constructor
      · intro _
        have hpair := Bool.and_eq_true _ _ |>.mp hc
        exact ⟨0, Nat.succ_pos rest.length, hpair.1, hpair.2⟩
      · intro _
        simp [extractLines, hc]
    · constructor
      · intro hs
        have hs2 : (extractLines rest).isSome = true := by
          simpa [extractLines, hc] using hs
        obtain ⟨i, hi, hh, hf⟩ := ih.mp hs2
        exact ⟨i + 1, Nat.succ_lt_succ hi, hh, hf⟩
      · intro ⟨i, hi, hh, hf⟩
        cases i with
        | zero =>
          have : (headerish l && followerOk rest) = true :=
            Bool.and_eq_true _ _ |>.mpr ⟨hh, hf⟩
          exact absurd this hc
        | succ n =>
          have hs2 : (extractLines rest).isSome = true :=
            ih.mpr ⟨n, Nat.lt_of_succ_lt_succ hi, hh, hf⟩
          simpa [extractLines, hc] using hs2

/-- Helper: the scan returns the block of the first viable header line. -/
theorem extractLines_first (lines : List (List Char)) (i : Nat)
    (hi : i < lines.length) (hh : headerish (lines.get ⟨i, hi⟩) = true)
    (hf : followerOk (lines.drop (i + 1)) = true)
    (hprev : ∀ j (hj : j < i),
      (headerish (lines.get ⟨j, Nat.lt_trans hj hi⟩)
        && followerOk (lines.drop (j + 1))) = false) :
    extractLines lines = some (tableBlock (lines.get ⟨i, hi⟩) (lines.drop (i + 1))) := by
  induction lines generalizing i with
  | nil => exact absurd hi (Nat.not_lt_zero i)
  | cons l rest ih =>
    cases i with
    | zero =>
      have hc : (headerish l && followerOk rest) = true :=
        Bool.and_eq_true _ _ |>.mpr ⟨hh, hf⟩
      simp [extractLines, hc]
    | succ n =>
      have hc : (headerish l && followerOk rest) = false := hprev 0 (Nat.succ_pos n)
      have hrw : extractLines (l :: rest) = extractLines rest := by
        simp [extractLines, hc]
      rw [hrw]
      exact ih n (Nat.lt_of_succ_lt_succ hi) hh hf
        (fun j hj => hprev (j + 1) (Nat.succ_lt_succ hj))

/-- Helper: every character of every split line is a character of the text. -/
theorem mem_of_mem_splitLines (cs : List Char) :
    ∀ l ∈ splitLines cs, ∀ c ∈ l, c ∈ cs := by
  induction cs with
  | nil =>
    intro l hl c hc
    simp [splitLines] at hl
    subst hl
    exact absurd hc (List.not_mem_nil c)
  | cons a t ih =>
    intro l hl c hc
    by_cases ha : a = '\n'
    · subst ha
      rw [show splitLines ('\n' :: t) = [] :: splitLines t from by
        simp [splitLines]] at hl
      rcases List.mem_cons.mp hl with h1 | h1
      · subst h1
        exact absurd hc (List.not_mem_nil c)
      · exact List.mem_cons_of_mem _ (ih l h1 c hc)
    · rw [show splitLines (a :: t) = (match splitLines t with
          | [] => [[a]]
          | h :: t2 => (a :: h) :: t2) from by simp [splitLines, ha]] at hl
      cases hsp : splitLines t with
      | nil =>
        rw [hsp] at hl
        simp at hl
        subst hl
        rcases List.mem_singleton.mp hc with h1
        exact h1 ▸ List.mem_cons_self a t
      | cons h t2 =>
        rw [hsp] at hl
        rcases List.mem_cons.mp hl with h1 | h1
        · subst h1
          rcases List.mem_cons.mp hc with h2 | h2
          · exact h2 ▸ List.mem_cons_self a t
          · exact List.mem_cons_of_mem _ (ih h (hsp ▸ List.mem_cons_self h t2) c h2)
        · exact List.mem_cons_of_mem _
            (ih l (hsp ▸ List.mem_cons_of_mem h h1) c hc)

/-- C4 (amended): table extraction returns a (cleaned) block exactly when some
line ends with `|` and contains at least two `|` characters (a viable header)
and is followed, after zero or more empty lines, by a line starting with `|`
that contains at least two `|` (a viable body start); it returns the block of
the first such line; and for any text with no `|` character at all it returns
`none`, which is the normal absent result, not an error. -/
theorem extract_markdown_table_amended (text : String) :
    ((extract_markdown_table text).isSome = true ↔
      ∃ i, ∃ hi : i < (splitLines text.data).length,
        headerish ((splitLines text.data).get ⟨i, hi⟩) = true
        ∧ followerOk ((splitLines text.data).drop (i + 1)) = true)
    ∧ (∀ i (hi : i < (splitLines text.data).length),
        headerish ((splitLines text.data).get ⟨i, hi⟩) = true →
        followerOk ((splitLines text.data).drop (i + 1)) = true →
        (∀ j (hj : j < i),
          (headerish ((splitLines text.data).get ⟨j, Nat.lt_trans hj hi⟩)
            && followerOk ((splitLines text.data).drop (j + 1))) = false) →
        extract_markdown_table text
          = some (cleanBlock (tableBlock ((splitLines text.data).get ⟨i, hi⟩)
              ((splitLines text.data).drop (i + 1)))))
    ∧ ((∀ c ∈ text.data, c ≠ '|') → extract_markdown_table text = none) := by
  refine ⟨?_, ?_, ?_⟩
  · rw [show (extract_markdown_table text).isSome
        = (extractLines (splitLines text.data)).isSome from by
      unfold extract_markdown_table
      cases extractLines (splitLines text.data) <;> rfl]
    exact extractLines_isSome_iff _
  · intro i hi hh hf hprev
    unfold extract_markdown_table
    rw [extractLines_first _ i hi hh hf hprev]
    rfl
  · intro hnp
    have hnone : extractLines (splitLines text.data) = none := by
      cases hcase : extractLines (splitLines text.data) with
      | none => rfl
      | some b =>
        have hs : (extractLines (splitLines text.data)).isSome = true := by
          rw [hcase]
          rfl
        obtain ⟨i, hi, hh, _⟩ := (extractLines_isSome_iff _).mp hs
        have hmem : (splitLines text.data).get ⟨i, hi⟩ ∈ splitLines text.data :=
          List.get_mem _ _ _
        have hcount : ((splitLines text.data).get ⟨i, hi⟩).count '|' = 0 := by
          rw [List.count_eq_zero]
          intro hcmem
          exact hnp '|' (mem_of_mem_splitLines _ _ hmem '|' hcmem) rfl
        rw [headerish, hcount] at hh
        simp at hh
    unfold extract_markdown_table
    rw [hnone]
    rfl

/-- C4 counterexample to the claim as stated: in
`"x | y | z\n| a | b |"` the first line contains `|` characters (so it is a
header line with at least one `|`) and is immediately followed by the
pipe-delimited line `"| a | b |"`, yet the extractor returns `none` — the
regex requires the header line itself to end with `|`. -/
theorem extract_markdown_table_claim_cex :
    extract_markdown_table "x | y | z\n| a | b |" = none
    ∧ 1 ≤ "x | y | z".data.count '|'
    ∧ "| a | b |".data.head? = some '|'
    ∧ "| a | b |".data.getLast? = some '|' :=
  ⟨by decide, by decide, by decide, by decide⟩

/-- Concrete sanity check (Scenario B): narrative text with no `|` yields the
absent result. -/
theorem extract_markdown_table_scenarioB :
    extract_markdown_table "The answer is narrative only." = none := by
  decide

/-- Concrete sanity check (Scenario A): a well-formed two-column markdown
table is extracted whole. -/
theorem extract_markdown_table_scenarioA :
    extract_markdown_table
        "| compound_name | avg_lifespan_change_percent |\n| --- | --- |\n| Rapamycin | 22.9 |\n| Acarbose | 22.0 |"
      = some "| compound_name | avg_lifespan_change_percent |\n| --- | --- |\n| Rapamycin | 22.9 |\n| Acarbose | 22.0 |" := by
  decide

/-- Value of a digit string, most significant first. -/
def digitsVal (cs : List Char) : Nat :=
  cs.foldl (fun a c => a * 10 + (c.toNat - '0'.toNat)) 0

/-- Model of the string coercion performed by `pd.to_numeric` for plain
decimal literals (optional sign, digits, optional fractional part; scientific
notation is not modelled): `none` is the NaN a non-coercible cell becomes. -/
def parseDec (s : String) : Option Rat :=
  let cs := pyStrip s.data
  let signed : Bool × List Char :=
    match cs with
    | '-' :: r => (true, r)
    | '+' :: r => (false, r)
    | _ => (false, cs)
  let ip := signed.2.takeWhile Char.isDigit
  let rest := signed.2.dropWhile Char.isDigit
  match rest with
  | [] =>
    if ip.isEmpty then none
    else some ((if signed.1 then -1 else 1) * (digitsVal ip : Rat))
  | '.' :: fr =>
    let fp := fr.takeWhile Char.isDigit
    if (fr.dropWhile Char.isDigit).isEmpty then
      if ip.isEmpty && fp.isEmpty then none
      else some ((if signed.1 then -1 else 1) *
        ((digitsVal ip : Rat) + (digitsVal fp : Rat) / (10 : Rat) ^ fp.length))
    else none
  | _ => none

/-- Numeric coercion of one cell (`pd.to_numeric(..., errors='coerce')`):
numbers pass through, strings are parsed, anything else is NaN (`none`). -/
def toNum : Cell → Option Rat
  | .num q => some q
  | .str s => parseDec s

/-- The `.fillna(0)` step: a non-coercible cell becomes the sentinel `0`. -/
def coerceY (c : Cell) : Rat :=
  (toNum c).getD 0

/-- A Python literal as `ast.literal_eval` yields it, restricted to the shapes
`_prepare_data` distinguishes: a scalar, a tuple of scalars, or a list. -/
inductive PyVal where
  | scalar (c : Cell)
  | tup (cells : List Cell)
  | arr (items : List PyVal)

/-- One element's tuple check in `_prepare_data`. -/
def asTuple : PyVal → Option (List Cell)
  | .tup cs => some cs
  | _ => none

/-- `PlottingTools._prepare_data` (`plotting_tools.py`, lines 13-29) after
`ast.literal_eval`: the value must be a list of tuples, and building the
DataFrame with the first tuple's column names fails (a caught `ValueError`,
hence `None`) when a later tuple has a different arity. -/
def prepare_data (v : PyVal) : Option (List (List Cell)) :=
  match v with
  | .arr items =>
    match items.mapM asTuple with
    | none => none
    | some rows =>
      match rows with
      | [] => some []
      | r0 :: rs =>
        if rs.all (fun r => r.length == r0.length) then some (r0 :: rs) else none
  | _ => none

/-- Number of columns of the prepared DataFrame (the first tuple's arity,
zero for an empty list). -/
def dfCols (rows : List (List Cell)) : Nat :=
  match rows with
  | [] => 0
  | r :: _ => r.length

/-- One row of the bar chart: the first cell as the label, the second cell
numerically coerced with NaN as 0. -/
def toPair (r : List Cell) : Cell × Rat :=
  (r.getD 0 (.str ""), coerceY (r.getD 1 (.str "")))

/-- The sort key of `df.sort_values(by=y_col, ascending=True)`. -/
def yLe (a b : Cell × Rat) : Bool :=
  decide (a.2 ≤ b.2)

/-- The rows as drawn: coerced, then sorted ascending by the y-value. -/
def barRows (rows : List (List Cell)) : List (Cell × Rat) :=
  (rows.map toPair).mergeSort yLe

/-- What one `create_bar_chart` call produces. The PNG encoding itself is
external (matplotlib); the `png` constructor carries the semantic content of
the drawn figure: axis names, title, and the bar rows in drawing order.
`raised` models an uncaught Python exception escaping the method. -/
inductive BarOutcome where
  | png (x_col y_col title : String) (rows : List (Cell × Rat))
  | errString (s : String)
  | raised (msg : String)
deriving DecidableEq, Repr

/-- `PlottingTools.create_bar_chart` (`plotting_tools.py`, lines 31-75):
parse-failure returns the fixed error string; then `df.columns = [x_col,
y_col]` raises an uncaught `ValueError` unless the DataFrame has exactly two
columns; then the y column is coerced (`errors='coerce'` + `fillna(0)`), the
rows are sorted ascending by it, and the figure is drawn. -/
def create_bar_chart (v : PyVal) (x_col y_col title : String) : BarOutcome :=
  match prepare_data v with
  | none => .errString "Error: Data for plotting was in an invalid format."
  | some rows =>
    if dfCols rows = 2 then .png x_col y_col title (barRows rows)
    else .raised "ValueError: Length mismatch"

/-- C8: for every successfully parsed two-column data list, the chart is drawn
from exactly one bar row per input row (non-coercible y-cells are kept, with
the sentinel value 0, never dropped), the drawn rows are a permutation of the
coerced input rows, and they are sorted ascending by the coerced y-value. -/
theorem create_bar_chart_rows (v : PyVal) (rows : List (List Cell))
    (x_col y_col title : String)
    (hprep : prepare_data v = some rows) (hcols : dfCols rows = 2) :
    create_bar_chart v x_col y_col title
        = BarOutcome.png x_col y_col title (barRows rows)
    ∧ (barRows rows).length = rows.length
    ∧ (barRows rows).Perm (rows.map toPair)
    ∧ List.Pairwise (fun a b : Cell × Rat => a.2 ≤ b.2) (barRows rows)
    ∧ (∀ x y, toNum y = none → toPair [x, y] = (x, 0)) := by
  have hperm : (barRows rows).Perm (rows.map toPair) := List.mergeSort_perm _ _
  refine ⟨by simp [create_bar_chart, hprep, hcols], ?_, hperm, ?_, ?_⟩
  · rw [hperm.length_eq, List.length_map]
  · have htrans : ∀ a b c : Cell × Rat,
        yLe a b = true → yLe b c = true → yLe a c = true := by
      intro a b c hab hbc
      rw [yLe, decide_eq_true_eq] at *
      exact le_trans hab hbc
    have htotal : ∀ a b : Cell × Rat, (yLe a b || yLe b a) = true := by
      intro a b
      rcases le_total a.2 b.2 with h | h <;> simp [yLe, h]
    have hs := List.sorted_mergeSort htrans htotal (rows.map toPair)
    exact hs.imp (fun h => by rwa [yLe, decide_eq_true_eq] at h)
  · intro x y hy
    simp [toPair, coerceY, hy]

/-- C8 witness: a two-row list whose first y-cell is not numeric is kept as a
zero bar, and the theorem's conclusions hold at it. -/
theorem create_bar_chart_rows_witness :
    create_bar_chart
        (PyVal.arr [PyVal.tup [Cell.str "Rapamycin", Cell.str "oops"],
          PyVal.tup [Cell.str "Acarbose", Cell.num 22]])
        "compound_name" "avg_lifespan_change_percent" "Query Results"
        = BarOutcome.png "compound_name" "avg_lifespan_change_percent" "Query Results"
            (barRows [[Cell.str "Rapamycin", Cell.str "oops"],
              [Cell.str "Acarbose", Cell.num 22]])
    ∧ (barRows [[Cell.str "Rapamycin", Cell.str "oops"],
        [Cell.str "Acarbose", Cell.num 22]]).length
        = [[Cell.str "Rapamycin", Cell.str "oops"],
            [Cell.str "Acarbose", Cell.num 22]].length
    ∧ (barRows [[Cell.str "Rapamycin", Cell.str "oops"],
        [Cell.str "Acarbose", Cell.num 22]]).Perm
        ([[Cell.str "Rapamycin", Cell.str "oops"],
          [Cell.str "Acarbose", Cell.num 22]].map toPair)
    ∧ List.Pairwise (fun a b : Cell × Rat => a.2 ≤ b.2)
        (barRows [[Cell.str "Rapamycin", Cell.str "oops"],
          [Cell.str "Acarbose", Cell.num 22]])
    ∧ (∀ x y, toNum y = none → toPair [x, y] = (x, 0)) :=
  create_bar_chart_rows
    (PyVal.arr [PyVal.tup [Cell.str "Rapamycin", Cell.str "oops"],
      PyVal.tup [Cell.str "Acarbose", Cell.num 22]])
    [[Cell.str "Rapamycin", Cell.str "oops"], [Cell.str "Acarbose", Cell.num 22]]
    "compound_name" "avg_lifespan_change_percent" "Query Results" rfl rfl

/-- C9 (code bug): a parsed list of 3-tuples passes `_prepare_data`, so it
reaches `df.columns = [x_col, y_col]`, which raises an uncaught `ValueError`
instead of returning an error string; by contrast a non-list input does take
the documented error-string return path. -/
theorem create_bar_chart_three_columns_raises :
    create_bar_chart (PyVal.arr [PyVal.tup [Cell.num 1, Cell.num 2, Cell.num 3]])
        "x" "y" "t"
      = BarOutcome.raised "ValueError: Length mismatch"
    ∧ create_bar_chart (PyVal.scalar (Cell.num 5)) "x" "y" "t"
      = BarOutcome.errString "Error: Data for plotting was in an invalid format." :=
  ⟨rfl, rfl⟩
